import Mathlib

/-!
Verification of the ClaimAssist vehicle-damage-assessment workflow.

This file shallow-embeds the decision logic of the repository:
the mock assessment generator and confidence/value/fraud routing of
`src/components/DamageAssessment.tsx`, the agent review and approval
logic of `AgentReview`, the `/api/analyze` route computations, and the
in-memory feedback aggregation module.  Money and confidence values are
JavaScript numbers and are modelled as rationals; random draws made by
the code (shuffles, jitters) are passed in explicitly as parameters;
Date-valued fields are modelled as opaque strings or omitted.
-/

namespace ClaimAssist

/-- Per-item damage severity, from the TypeScript union
`Minor | Moderate | Severe`. -/
inductive Severity where
  | Minor
  | Moderate
  | Severe
deriving DecidableEq, Repr

/-- Overall assessment severity, from the union
`None | Minor | Moderate | Severe`. -/
inductive OverallSeverity where
  | None
  | Minor
  | Moderate
  | Severe
deriving DecidableEq, Repr

/-- Injection of a per-item severity into the overall-severity scale. -/
def sevLift : Severity → OverallSeverity
  | .Minor => .Minor
  | .Moderate => .Moderate
  | .Severe => .Severe

/-- Numeric rank of an overall severity under the ordering
`Severe > Moderate > Minor > None`. -/
def osRank : OverallSeverity → Nat
  | .None => 0
  | .Minor => 1
  | .Moderate => 2
  | .Severe => 3

/-- Maximum of two overall severities under the `osRank` ordering. -/
def osMax (a b : OverallSeverity) : OverallSeverity :=
  if osRank b ≤ osRank a then a else b

/-- Inconsistency (fraud-signal) categories from `InconsistencyFlag.type`. -/
inductive InconsistencyType where
  | color_mismatch
  | model_mismatch
  | multiple_vehicles
  | vin_mismatch
  | other
deriving DecidableEq, Repr

/-- Severity of an inconsistency flag: `warning | critical`. -/
inductive FlagSeverity where
  | warning
  | critical
deriving DecidableEq, Repr

/-- `InconsistencyFlag` from `DamageAssessment.tsx`. -/
structure InconsistencyFlag where
  ftype : InconsistencyType
  description : String
  severity : FlagSeverity
  confidence : ℚ
deriving DecidableEq, Repr

/-- `DamageItem` from `DamageAssessment.tsx`.  The TypeScript field `type`
is a Lean keyword and is rendered as `dtype`; the optional cost-breakdown
fields are modelled as total (the generator always fills them). -/
structure DamageItem where
  area : String
  dtype : String
  severity : Severity
  estimatedCost : ℚ
  confidence : ℚ
  partsCost : ℚ
  laborHours : ℚ
  laborRate : ℚ
deriving DecidableEq, Repr

instance : Inhabited DamageItem :=
  ⟨{ area := "", dtype := "", severity := .Minor, estimatedCost := 0,
     confidence := 0, partsCost := 0, laborHours := 0, laborRate := 0 }⟩

/-- `ManualOverride` from `DamageAssessment.tsx`. -/
structure ManualOverride where
  damageIndex : Nat
  originalCost : ℚ
  adjustedCost : ℚ
  reason : String
deriving DecidableEq, Repr

/-- `AssessmentResult` from `DamageAssessment.tsx`.  Optional TypeScript
fields of object/list type are `Option`/lists; the optional booleans
`humanAssisted` and `hasInconsistencies` are modelled as `Bool`
(JavaScript `undefined` is falsy and the code only ever tests them). -/
structure AssessmentResult where
  claimId : String
  overallSeverity : OverallSeverity
  hasDamage : Bool
  damages : List DamageItem
  totalEstimate : ℚ
  laborHours : ℚ
  partsRequired : List String
  aiConfidence : ℚ
  recommendations : List String
  processingTime : ℚ
  summary : Option String
  humanAssisted : Bool
  manualOverrides : Option (List ManualOverride)
  overrideNotes : Option String
  hasInconsistencies : Bool
  inconsistencies : List InconsistencyFlag
deriving DecidableEq, Repr

/-- `ClaimData` fields used by the assessment components. -/
structure ClaimData where
  policyNumber : String
  vehicleMake : String
  vehicleModel : String
  vehicleYear : String
  accidentDate : String
  accidentDescription : String
deriving DecidableEq, Repr

/-- A human point-marker placed on an uploaded image. -/
structure DamageMarker where
  x : ℚ
  y : ℚ
  imageIndex : Nat
  description : Option String
deriving DecidableEq, Repr

/-- Index-aware list map, modelling `Array.prototype.map((d, i) => ...)`
starting at index `k`. -/
def mapWithIndexFrom (f : Nat → α → β) : Nat → List α → List β
  | _, [] => []
  | k, x :: xs => f k x :: mapWithIndexFrom f (k + 1) xs

/-- Index-aware list map starting at index 0. -/
def mapWithIndex (f : Nat → α → β) (l : List α) : List β :=
  mapWithIndexFrom f 0 l

theorem length_mapWithIndexFrom (f : Nat → α → β) :
    ∀ (k : Nat) (l : List α), (mapWithIndexFrom f k l).length = l.length := by
  intro k l
  induction l generalizing k with
  | nil => rfl
  | cons x xs ih => simp [mapWithIndexFrom, ih]

theorem length_mapWithIndex (f : Nat → α → β) (l : List α) :
    (mapWithIndex f l).length = l.length :=
  length_mapWithIndexFrom f 0 l

theorem forall_mem_mapWithIndexFrom {f : Nat → α → β} {p : β → Prop}
    (hf : ∀ i x, p (f i x)) :
    ∀ (k : Nat) (l : List α), ∀ y ∈ mapWithIndexFrom f k l, p y := by
  intro k l
  induction l generalizing k with
  | nil => intro y hy; cases hy
  | cons x xs ih =>
      intro y hy
      rcases List.mem_cons.mp hy with hy | hy
      · exact hy ▸ hf k x
      · exact ih (k + 1) y hy

theorem forall_mem_mapWithIndex {f : Nat → α → β} {p : β → Prop}
    (hf : ∀ i x, p (f i x)) (l : List α) :
    ∀ y ∈ mapWithIndex f l, p y :=
  forall_mem_mapWithIndexFrom hf 0 l

/-- `LABOR_RATE` constant: 115 dollars per hour. -/
def LABOR_RATE : ℚ := 115

/-- `LOW_CONFIDENCE_THRESHOLD` constant. -/
def LOW_CONFIDENCE_THRESHOLD : ℚ := 70

/-- `SENIOR_APPROVAL_THRESHOLD` constant. -/
def SENIOR_APPROVAL_THRESHOLD : ℚ := 5000

/-- `HIGH_CONFIDENCE_THRESHOLD` constant. -/
def HIGH_CONFIDENCE_THRESHOLD : ℚ := 85

/-- An entry of the `damageTypes` table in `generateMockAssessment`. -/
structure BaseDamage where
  area : String
  dtype : String
  severity : Severity
  partsCost : ℚ
  laborHours : ℚ
deriving DecidableEq, Repr

/-- The `damageTypes` table from `generateMockAssessment`. -/
def damageTypes : List BaseDamage :=
  [ { area := "Front Bumper", dtype := "Dent", severity := .Moderate,
      partsCost := 550, laborHours := 7/2 },
    { area := "Hood", dtype := "Scratch", severity := .Minor,
      partsCost := 0, laborHours := 2 },
    { area := "Front Left Fender", dtype := "Crumple damage", severity := .Severe,
      partsCost := 2800, laborHours := 13/2 },
    { area := "Headlight Assembly", dtype := "Cracked lens", severity := .Moderate,
      partsCost := 450, laborHours := 3/2 },
    { area := "Grille", dtype := "Broken", severity := .Minor,
      partsCost := 180, laborHours := 1/2 },
    { area := "Front Quarter Panel", dtype := "Structural damage", severity := .Severe,
      partsCost := 3200, laborHours := 8 },
    { area := "Windshield", dtype := "Minor chip", severity := .Minor,
      partsCost := 0, laborHours := 1/2 },
    { area := "Door Panel", dtype := "Deep scratch", severity := .Moderate,
      partsCost := 950, laborHours := 4 } ]

/-- The random draws consumed by one run of `generateMockAssessment`.
`shuffled` is the result of `damageTypes.sort(() => Math.random() - 0.5)`
(a permutation of the table); the indexed families give, for item `i`,
the cost jitter `Math.floor(Math.random() * 100)`, the base confidence
`75 + Math.floor(Math.random() * 20)`, and the redrawn parts cost and
(already rounded to 0.5) labor hours used by the severity-override
branches.  `claimTag` stands for the `Date.now()`-derived id suffix and
`procTime` for the drawn processing time. -/
structure MockDraws where
  shuffled : List BaseDamage
  costJitter : Nat → ℚ
  baseConf : Nat → ℚ
  ovParts : Nat → ℚ
  ovLaborHalf : Nat → ℚ
  claimTag : String
  procTime : ℚ

/-- `Math.floor` on a rational, coerced back to a rational. -/
def ratFloor (q : ℚ) : ℚ := ((⌊q⌋ : ℤ) : ℚ)

/-- The `Severe`/`Moderate`/`Minor` chained-`some` expression computing
`overallSeverity` in `generateMockAssessment` (lines 257-259). -/
def severityChain (ds : List DamageItem) : OverallSeverity :=
  if ds.any fun d => decide (d.severity = .Severe) then .Severe
  else if ds.any fun d => decide (d.severity = .Moderate) then .Moderate
  else .Minor

/-- The two hard-coded inconsistency flags produced by the generator when
`hasInconsistencyOverride` is set. -/
def mockInconsistencyFlags : List InconsistencyFlag :=
  [ { ftype := .color_mismatch,
      description := "Images show vehicles of different colors (white vs blue detected)",
      severity := .critical, confidence := 94 },
    { ftype := .multiple_vehicles,
      description := "Photos appear to show 2 different vehicles based on body style and features",
      severity := .critical, confidence := 89 } ]

/-- The list of damage items selected and priced by `generateMockAssessment`
in its has-damage branch, before aggregation: the shuffled table is cut to
`numDamages` entries, priced as parts + labor + jitter, and then repriced
wholesale when a severity override is supplied. -/
def mockSelectedDamages (imageCount : Nat) (overrideConfidence : Option ℚ)
    (overrideSeverity : Option Severity) (draws : MockDraws) : List DamageItem :=
  let numDamages := min (max 2 imageCount) damageTypes.length
  let picked := draws.shuffled.take numDamages
  let base := mapWithIndex (fun i d =>
    let laborCost := d.laborHours * LABOR_RATE
    let totalCost := d.partsCost + laborCost
    ({ area := d.area, dtype := d.dtype,
       severity := (overrideSeverity.getD d.severity),
       estimatedCost := totalCost + draws.costJitter i,
       confidence := overrideConfidence.getD (draws.baseConf i),
       partsCost := d.partsCost, laborHours := d.laborHours,
       laborRate := LABOR_RATE } : DamageItem)) picked
  match overrideSeverity with
  | some .Severe =>
      mapWithIndex (fun i d =>
        { d with severity := .Severe, partsCost := draws.ovParts i,
                 laborHours := draws.ovLaborHalf i, laborRate := LABOR_RATE,
                 estimatedCost := draws.ovParts i + draws.ovLaborHalf i * LABOR_RATE }) base
  | some .Minor =>
      mapWithIndex (fun i d =>
        { d with severity := .Minor, partsCost := draws.ovParts i,
                 laborHours := draws.ovLaborHalf i, laborRate := LABOR_RATE,
                 estimatedCost := draws.ovParts i + draws.ovLaborHalf i * LABOR_RATE })
        (base.take (min 2 base.length))
  | some .Moderate =>
      mapWithIndex (fun i d =>
        { d with severity := .Moderate, partsCost := draws.ovParts i,
                 laborHours := draws.ovLaborHalf i, laborRate := LABOR_RATE,
                 estimatedCost := draws.ovParts i + draws.ovLaborHalf i * LABOR_RATE }) base
  | none => base

/-- `generateMockAssessment` from `DamageAssessment.tsx`: the simulated
(test/demo mode) assessment generator, also used verbatim as the fallback
when the live API call fails.  Randomness is supplied through `draws`. -/
def generateMockAssessment (_claimData : ClaimData) (imageCount : Nat)
    (overrideConfidence : Option ℚ) (overrideSeverity : Option Severity)
    (hasDamageOverride : Option Bool) (hasInconsistencyOverride : Option Bool)
    (draws : MockDraws) : AssessmentResult :=
  if hasDamageOverride = some false then
    { claimId := "CLM-" ++ draws.claimTag,
      hasDamage := false,
      overallSeverity := .None,
      damages := [],
      totalEstimate := 0,
      laborHours := 0,
      partsRequired := [],
      aiConfidence := overrideConfidence.getD 85,
      recommendations :=
        [ "No visible damage detected",
          "Consider requesting additional photos if damage was reported" ],
      processingTime := 23/10,
      summary := some "[Simulated] No damage detected in uploaded images",
      humanAssisted := false,
      manualOverrides := none,
      overrideNotes := none,
      hasInconsistencies := false,
      inconsistencies := [] }
  else
    let selectedDamages :=
      mockSelectedDamages imageCount overrideConfidence overrideSeverity draws
    let totalEstimate := (selectedDamages.map (·.estimatedCost)).sum
    let totalLaborHours := (selectedDamages.map (·.laborHours)).sum
    let overallSeverity :=
      match overrideSeverity with
      | some s => sevLift s
      | none => severityChain selectedDamages
    let partsRequired :=
      (selectedDamages.filter fun d => decide (0 < d.partsCost)).map
        (fun d => d.area ++ " replacement/repair")
    let avgConfidence :=
      overrideConfidence.getD
        (ratFloor ((selectedDamages.map (·.confidence)).sum / (selectedDamages.length : ℚ)))
    let hasInc := hasInconsistencyOverride.getD false
    let recommendations :=
      (if hasInc then
        ["CRITICAL: Vehicle inconsistencies detected - halt processing and investigate for potential fraud"]
       else []) ++
      [ (if avgConfidence < LOW_CONFIDENCE_THRESHOLD then
           "Low confidence assessment - human review recommended"
         else if overallSeverity = .Severe then
           "Recommend in-person inspection before authorization"
         else "Damage consistent with reported incident"),
        (if SENIOR_APPROVAL_THRESHOLD < totalEstimate then
           "Estimate exceeds $5,000 threshold - senior adjuster review required"
         else "Within standard authorization limits"),
        "All repairs should be performed at certified body shop" ]
    { claimId := "CLM-" ++ draws.claimTag,
      hasDamage := true,
      overallSeverity := overallSeverity,
      damages := selectedDamages,
      totalEstimate := totalEstimate,
      laborHours := totalLaborHours,
      partsRequired := partsRequired,
      aiConfidence := avgConfidence,
      recommendations := recommendations,
      processingTime := draws.procTime,
      summary := some (if hasInc then
          "[Simulated] ALERT: Multiple vehicle inconsistencies detected in uploaded images"
        else "[Simulated] Demo mode - using simulated assessment data"),
      humanAssisted := false,
      manualOverrides := none,
      overrideNotes := none,
      hasInconsistencies := hasInc,
      inconsistencies := if hasInc then mockInconsistencyFlags else [] }

/-- The override/removal state kept by the `DamageAssessment` component:
`overrideEnabled`, `adjustedCosts`, `overrideReasons` and `removedItems`
are JavaScript records keyed by damage index, modelled as total functions
(`adjustedCosts` is partial in the source: `undefined` is `none`). -/
structure ReviewState where
  overrideEnabled : Nat → Bool
  adjustedCosts : Nat → Option ℚ
  overrideReasons : Nat → String
  removedItems : Nat → Bool

/-- The initial component state: no overrides, no adjusted costs,
no removals. -/
def initialReviewState : ReviewState :=
  { overrideEnabled := fun _ => false,
    adjustedCosts := fun _ => none,
    overrideReasons := fun _ => "",
    removedItems := fun _ => false }

/-- The UI events that mutate the override/removal state: the override
checkbox (`setOverride`), the adjusted-cost number input
(`setAdjustedCost`), the reason text input (`setOverrideReason`) and the
remove/restore button (`toggleRemove`). -/
inductive ReviewAction where
  | setOverride (i : Nat) (checked : Bool)
  | setAdjustedCost (i : Nat) (v : ℚ)
  | setOverrideReason (i : Nat) (s : String)
  | toggleRemove (i : Nat)

/-- One UI event applied to the component state, following the JSX event
handlers.  The override checkbox and the cost/reason inputs are only
rendered for indices below `damages.length` that are not removed (and the
inputs only when the override is enabled), so those actions are guarded
accordingly.  Checking the override box seeds `adjustedCosts[i]` with the
item cost when it is still `undefined`; pressing remove on a non-removed
item also clears `overrideEnabled[i]`. -/
def applyAction (damages : List DamageItem) (s : ReviewState) :
    ReviewAction → ReviewState
  | .setOverride i checked =>
      if i < damages.length ∧ s.removedItems i = false then
        let s1 := { s with overrideEnabled := fun j => if j = i then checked else s.overrideEnabled j }
        if checked ∧ s.adjustedCosts i = none then
          { s1 with adjustedCosts := fun j =>
              if j = i then some (damages.getD i default).estimatedCost
              else s.adjustedCosts j }
        else s1
      else s
  | .setAdjustedCost i v =>
      if i < damages.length ∧ s.removedItems i = false ∧ s.overrideEnabled i = true then
        { s with adjustedCosts := fun j => if j = i then some v else s.adjustedCosts j }
      else s
  | .setOverrideReason i r =>
      if i < damages.length ∧ s.removedItems i = false ∧ s.overrideEnabled i = true then
        { s with overrideReasons := fun j => if j = i then r else s.overrideReasons j }
      else s
  | .toggleRemove i =>
      if i < damages.length then
        let s1 := { s with removedItems := fun j => if j = i then !s.removedItems j else s.removedItems j }
        if s.removedItems i = false then
          { s1 with overrideEnabled := fun j => if j = i then false else s.overrideEnabled j }
        else s1
      else s

/-- Run a sequence of UI events from the initial state. -/
def runActions (damages : List DamageItem) (acts : List ReviewAction) : ReviewState :=
  acts.foldl (applyAction damages) initialReviewState

/-- The amount item `i` contributes to the running total in
`getAdjustedTotal`: removed items are skipped; an enabled override with a
defined adjusted cost contributes that cost; everything else contributes
the original estimated cost. -/
def codeItemAmount (damages : List DamageItem) (s : ReviewState) (i : Nat) : ℚ :=
  if s.removedItems i then 0
  else
    match s.overrideEnabled i, s.adjustedCosts i with
    | true, some v => v
    | true, none => (damages.getD i default).estimatedCost
    | false, _ => (damages.getD i default).estimatedCost

/-- `getAdjustedTotal` from `DamageAssessment.tsx`: the `forEach`
accumulation over all damage indices. -/
def getAdjustedTotal (damages : List DamageItem) (s : ReviewState) : ℚ :=
  ((List.range damages.length).map (codeItemAmount damages s)).sum

/-- `handleContinueWithOverrides`: removed items are filtered out of the
damage list, the submitted total is `getAdjustedTotal`, and every enabled
override with a defined adjusted cost is recorded with its original and
adjusted cost (defaulting the reason). -/
def handleContinueWithOverrides (a : AssessmentResult) (s : ReviewState)
    (overrideNotes : String) : AssessmentResult :=
  let filteredDamages :=
    (List.range a.damages.length).filterMap fun i =>
      if s.removedItems i then none else some (a.damages.getD i default)
  let manualOverrides :=
    (List.range a.damages.length).filterMap fun i =>
      if s.removedItems i then none
      else
        match s.overrideEnabled i, s.adjustedCosts i with
        | true, some v =>
            some { damageIndex := i,
                   originalCost := (a.damages.getD i default).estimatedCost,
                   adjustedCost := v,
                   reason := if s.overrideReasons i = "" then "Manual adjustment"
                             else s.overrideReasons i : ManualOverride }
        | _, _ => none
  { a with
    damages := filteredDamages,
    totalEstimate := getAdjustedTotal a.damages s,
    manualOverrides := if manualOverrides.length > 0 then some manualOverrides else none,
    overrideNotes := if overrideNotes.trim = "" then none else some overrideNotes.trim }

/-- `canAutoApprove` from the damage-detected view of `DamageAssessment`:
high confidence, adjusted total within the senior-approval ceiling, and
no inconsistency flag. -/
def canAutoApprove (a : AssessmentResult) (adjustedTotal : ℚ) : Bool :=
  decide (HIGH_CONFIDENCE_THRESHOLD ≤ a.aiConfidence) &&
  decide (adjustedTotal ≤ SENIOR_APPROVAL_THRESHOLD) &&
  !a.hasInconsistencies

/-- Which branch one run of `analyzeImages` ends in. -/
inductive AnalysisRoute where
  | needsHumanInput
  | autoApprove
  | review
deriving DecidableEq, Repr

/-- The human-marker post-processing of the simulated branch: when at
least one marker was supplied, boost the confidence by 15 capped at 95
and mark the result human-assisted. -/
def simulatedBoost (mock0 : AssessmentResult)
    (humanMarkers : Option (List DamageMarker)) : AssessmentResult :=
  match humanMarkers with
  | some ms =>
      if 0 < ms.length then
        { mock0 with
          aiConfidence := min 95 (mock0.aiConfidence + 15),
          humanAssisted := true,
          summary := some "[Simulated] Human-assisted assessment with marked locations" }
      else mock0
  | none => mock0

/-- The routing decision of the simulated branch of `analyzeImages`:
request human input on low confidence with damage when no markers were
supplied yet; auto-approve on damage with high confidence, value within
the ceiling, no inconsistency flag, and a wired quick-approve callback;
otherwise standard review. -/
def routeDecision (mock : AssessmentResult) (markersSupplied : Bool)
    (quickApproveWired : Bool) : AnalysisRoute :=
  if mock.aiConfidence < LOW_CONFIDENCE_THRESHOLD ∧ markersSupplied = false ∧
      mock.hasDamage then
    .needsHumanInput
  else if mock.hasDamage ∧ HIGH_CONFIDENCE_THRESHOLD ≤ mock.aiConfidence ∧
      mock.totalEstimate ≤ SENIOR_APPROVAL_THRESHOLD ∧
      mock.hasInconsistencies = false ∧ quickApproveWired then
    .autoApprove
  else
    .review

def simulatedAnalyze (claimData : ClaimData) (imageCount : Nat)
    (testConfidence : ℚ) (testSeverity : Severity) (testHasDamage : Bool)
    (testHasInconsistency : Bool) (draws : MockDraws)
    (humanMarkers : Option (List DamageMarker)) (quickApproveWired : Bool) :
    AssessmentResult × AnalysisRoute :=
  let mock0 := generateMockAssessment claimData imageCount (some testConfidence)
    (some testSeverity) (some testHasDamage) (some testHasInconsistency) draws
  let mock := simulatedBoost mock0 humanMarkers
  (mock, routeDecision mock humanMarkers.isSome quickApproveWired)

/-- The body of a successful `/api/analyze` response as consumed by the
client (all fields it reads are optional there and defaulted with `||`).
-/
structure ApiResponseBody where
  hasDamage : Bool
  overallSeverity : Option OverallSeverity
  damages : Option (List DamageItem)
  totalEstimate : Option ℚ
  laborHours : Option ℚ
  partsRequired : Option (List String)
  aiConfidence : Option ℚ
  recommendations : Option (List String)
  summary : Option String
  hasInconsistencies : Option Bool
  inconsistencies : Option (List InconsistencyFlag)
deriving DecidableEq, Repr

/-- The live-mode result shaping in `analyzeImages` (lines 754-769):
missing response fields default to empty/zero/`None`, and the result is
marked human-assisted exactly when markers were sent with the request.
No confidence boost is applied in this path. -/
def processLiveResult (r : ApiResponseBody) (humanMarkers : Option (List DamageMarker))
    (claimTag : String) (processingTime : ℚ) : AssessmentResult :=
  { claimId := "CLM-" ++ claimTag,
    hasDamage := r.hasDamage,
    overallSeverity := r.overallSeverity.getD .None,
    damages := r.damages.getD [],
    totalEstimate := r.totalEstimate.getD 0,
    laborHours := r.laborHours.getD 0,
    partsRequired := r.partsRequired.getD [],
    aiConfidence := r.aiConfidence.getD 0,
    recommendations := r.recommendations.getD [],
    processingTime := processingTime,
    summary := r.summary,
    humanAssisted := match humanMarkers with
      | some ms => decide (0 < ms.length)
      | none => false,
    manualOverrides := none,
    overrideNotes := none,
    hasInconsistencies := r.hasInconsistencies.getD false,
    inconsistencies := r.inconsistencies.getD [] }

/-- The routing decision at the end of the live branch of `analyzeImages`:
the only special route is the human-input request (low confidence, damage
detected, no markers supplied yet); otherwise the assessment is shown for
standard review. -/
def liveRoute (a : AssessmentResult) (humanMarkers : Option (List DamageMarker)) :
    AnalysisRoute :=
  if a.aiConfidence < LOW_CONFIDENCE_THRESHOLD ∧ humanMarkers = none ∧ a.hasDamage then
    .needsHumanInput
  else .review

/-- Outcome of the single external `/api/analyze` round trip as seen by
the client: either a parsed successful body, or a failure (network error,
non-ok status, or unparsable payload) carrying the error message. -/
inductive LiveOutcome where
  | success (r : ApiResponseBody)
  | failure (message : String)

/-- The slice of component state that one run of live-mode `analyzeImages`
produces: the assessment that gets displayed, whether the component is
still stuck analyzing, the error note, and how many external calls were
made during the run. -/
structure LiveAnalysisState where
  assessment : Option AssessmentResult
  route : AnalysisRoute
  isAnalyzing : Bool
  errorNote : Option String
  apiCallCount : Nat
deriving DecidableEq, Repr

/-- The live branch of `analyzeImages` as a whole: exactly one external
call is made; on success its body is shaped and routed; on any failure
the `catch` block substitutes `generateMockAssessment` (the test/demo
generator, called with default parameters), annotates its summary with
the error message, records the error, and ends the analyzing state. -/
def analyzeLiveImages (claimData : ClaimData) (imageCount : Nat)
    (draws : MockDraws) (humanMarkers : Option (List DamageMarker))
    (claimTag : String) (processingTime : ℚ) (outcome : LiveOutcome) :
    LiveAnalysisState :=
  match outcome with
  | .success r =>
      let a := processLiveResult r humanMarkers claimTag processingTime
      { assessment := some a, route := liveRoute a humanMarkers,
        isAnalyzing := false, errorNote := none, apiCallCount := 1 }
  | .failure msg =>
      let m := generateMockAssessment claimData imageCount none none none none draws
      { assessment := some { m with
          summary := some ("[API Error] " ++ msg ++ " - using simulated data") },
        route := .review,
        isAnalyzing := false, errorNote := some msg, apiCallCount := 1 }

/-- The model output parsed by the `/api/analyze` route (the fields the
route reads before computing the totals it adds). -/
structure ApiAnalysis where
  hasDamage : Bool
  summary : String
  damages : List DamageItem
  overallSeverity : OverallSeverity
  laborHours : ℚ
  partsRequired : List String
  recommendations : List String
  hasInconsistencies : Bool
  inconsistencies : List InconsistencyFlag
deriving DecidableEq, Repr

/-- `Math.round` on a rational: round half toward positive infinity. -/
def jsRound (q : ℚ) : ℚ := ((⌊q + 1/2⌋ : ℤ) : ℚ)

/-- The total the route adds to the model output: item costs plus labor at
85 dollars per hour. -/
def routeTotalEstimate (a : ApiAnalysis) : ℚ :=
  (a.damages.map (·.estimatedCost)).sum + a.laborHours * 85

/-- The aggregate confidence the route adds: `Math.round` of the mean of
the per-item confidences when damages exist, and 95 for "no damage"
assessments. -/
def routeAvgConfidence (a : ApiAnalysis) : ℚ :=
  if 0 < a.damages.length then
    jsRound ((a.damages.map (·.confidence)).sum / (a.damages.length : ℚ))
  else 95

/-- An error response of the `/api/analyze` route: HTTP status and message. -/
structure RouteError where
  status : Nat
  message : String
deriving DecidableEq, Repr

/-- A successful `/api/analyze` response: the model output spread together
with the computed `totalEstimate` and `aiConfidence`. -/
structure RouteSuccess where
  analysis : ApiAnalysis
  totalEstimate : ℚ
  aiConfidence : ℚ
deriving DecidableEq, Repr

/-- The `POST` handler of `/api/analyze`: reject empty image lists and a
missing API key; a model reply that fails `JSON.parse` throws and is
caught as a 500 with message "Invalid response format from AI"; otherwise
the parsed analysis is returned together with the computed totals.
`parsedModelOutput = none` models an unparsable (non-JSON) model reply. -/
def routePOST (apiKeyConfigured : Bool) (images : List String)
    (parsedModelOutput : Option ApiAnalysis) : Except RouteError RouteSuccess :=
  if images = [] then
    .error { status := 400, message := "No images provided" }
  else if apiKeyConfigured = false then
    .error { status := 500, message := "API key not configured" }
  else
    match parsedModelOutput with
    | none => .error { status := 500, message := "Invalid response format from AI" }
    | some a =>
        .ok { analysis := a,
              totalEstimate := routeTotalEstimate a,
              aiConfidence := routeAvgConfidence a }

/-- Approval tier of a `FinalAssessment`. -/
inductive ApprovalLevel where
  | agent
  | senior
deriving DecidableEq, Repr

/-- `DamageAdjustment` from `AgentReview.tsx`. -/
structure DamageAdjustment where
  damageIndex : Nat
  originalCost : ℚ
  adjustedCost : ℚ
  reason : String
deriving DecidableEq, Repr

/-- `FinalAssessment` from `AgentReview.tsx` (the `approvedAt` date is
omitted from the model). -/
structure FinalAssessment where
  assessment : AssessmentResult
  agentNotes : String
  adjustedTotal : ℚ
  adjustments : List DamageAdjustment
  approvedBy : String
  approvalLevel : ApprovalLevel
deriving DecidableEq, Repr

/-- The running total in `AgentReview`: the sum of the (possibly adjusted)
item costs. -/
def agentReviewTotal (adjustedDamages : List DamageItem) : ℚ :=
  (adjustedDamages.map (·.estimatedCost)).sum

/-- `handleApprove` from `AgentReview.tsx`: record an adjustment for every
index whose cost differs from the original, and escalate to senior
approval when the adjusted total exceeds the 5000 ceiling or the overall
severity is `Severe`. -/
def handleApprove (assessment : AssessmentResult)
    (adjustedDamages : List DamageItem) (agentNotes : String) : FinalAssessment :=
  let adjustedTotal := agentReviewTotal adjustedDamages
  let requiresSeniorApproval :=
    SENIOR_APPROVAL_THRESHOLD < adjustedTotal ∨ assessment.overallSeverity = .Severe
  let adjustments :=
    (List.range adjustedDamages.length).filterMap fun i =>
      let newCost := (adjustedDamages.getD i default).estimatedCost
      let origCost := (assessment.damages.getD i default).estimatedCost
      if newCost ≠ origCost then
        some { damageIndex := i, originalCost := origCost, adjustedCost := newCost,
               reason := "Manual adjustment by claims agent" : DamageAdjustment }
      else none
  { assessment := { assessment with damages := adjustedDamages, totalEstimate := adjustedTotal },
    agentNotes := agentNotes,
    adjustedTotal := adjustedTotal,
    adjustments := adjustments,
    approvedBy := "Agent Smith",
    approvalLevel := if requiresSeniorApproval then .senior else .agent }

/-- Interaction classification of a feedback entry. -/
inductive InteractionType where
  | auto_approved
  | quick_approved
  | agent_reviewed
  | rejected
deriving DecidableEq, Repr

/-- Direction of an estimate override in the feedback metrics. -/
inductive OverrideDirection where
  | increased
  | decreased
  | none
deriving DecidableEq, Repr

/-- The snapshot of a damage item kept inside `FeedbackEntry.aiAssessment`
(severity is a plain string there). -/
structure FeedbackDamageSnapshot where
  area : String
  dtype : String
  severity : String
  estimatedCost : ℚ
  confidence : ℚ
deriving DecidableEq, Repr

/-- `FeedbackEntry.aiAssessment`: the original AI assessment snapshot. -/
structure AiAssessmentSnapshot where
  damages : List FeedbackDamageSnapshot
  totalEstimate : ℚ
  aiConfidence : ℚ
  overallSeverity : String
deriving DecidableEq, Repr

/-- One cost adjustment inside `FeedbackEntry.agentModifications`. -/
structure FeedbackCostAdjustment where
  damageIndex : Nat
  originalCost : ℚ
  adjustedCost : ℚ
  reason : String
deriving DecidableEq, Repr

/-- `FeedbackEntry.agentModifications`. -/
structure AgentModifications where
  costAdjustments : List FeedbackCostAdjustment
  removedItems : List Nat
  addedNotes : String
  finalTotal : ℚ
deriving DecidableEq, Repr

/-- The derived metrics stored on every feedback entry. -/
structure FeedbackMetrics where
  estimateAccuracyDelta : ℚ
  wasOverridden : Bool
  overrideDirection : OverrideDirection
  confidenceWasAccurate : Bool
deriving DecidableEq, Repr

/-- The caller-supplied part of a feedback entry (everything except the
generated id, timestamp and metrics). -/
structure FeedbackInput where
  claimId : String
  aiAssessment : AiAssessmentSnapshot
  agentModifications : AgentModifications
  interactionType : InteractionType
  reviewTimeSeconds : ℚ
  agentId : String
deriving DecidableEq, Repr

/-- A full `FeedbackEntry` (the `Date` timestamp is modelled as an opaque
string). -/
structure FeedbackEntry where
  id : String
  timestamp : String
  claimId : String
  aiAssessment : AiAssessmentSnapshot
  agentModifications : AgentModifications
  interactionType : InteractionType
  reviewTimeSeconds : ℚ
  agentId : String
  metrics : FeedbackMetrics
deriving DecidableEq, Repr

/-- `calculateMetrics` from the feedback module: percentage delta (zero
unless the original total is positive), override detection from the
adjustment and removal lists, direction from a raw comparison of the two
totals, and the calibration bit comparing declared confidence with the
magnitude of the correction. -/
def calculateMetrics (entry : FeedbackInput) : FeedbackMetrics :=
  let originalTotal := entry.aiAssessment.totalEstimate
  let finalTotal := entry.agentModifications.finalTotal
  let delta : ℚ :=
    if 0 < originalTotal then (finalTotal - originalTotal) / originalTotal * 100 else 0
  let wasOverridden : Bool :=
    decide (entry.agentModifications.costAdjustments ≠ []) ||
    decide (entry.agentModifications.removedItems ≠ [])
  let overrideDirection : OverrideDirection :=
    if wasOverridden = false then .none
    else if originalTotal < finalTotal then .increased
    else .decreased
  let significantChange : Bool := decide (15 < |delta|)
  let confidenceWasAccurate : Bool :=
    if 85 ≤ entry.aiAssessment.aiConfidence then !significantChange else significantChange
  { estimateAccuracyDelta := delta,
    wasOverridden := wasOverridden,
    overrideDirection := overrideDirection,
    confidenceWasAccurate := confidenceWasAccurate }

/-- `recordFeedback`: build the full entry, computing the metrics at
insertion time, and append it to the store.  Returns the stored entry and
the new store. -/
def recordFeedback (store : List FeedbackEntry) (entry : FeedbackInput)
    (freshId : String) (now : String) : FeedbackEntry × List FeedbackEntry :=
  let fullEntry : FeedbackEntry :=
    { id := freshId,
      timestamp := now,
      claimId := entry.claimId,
      aiAssessment := entry.aiAssessment,
      agentModifications := entry.agentModifications,
      interactionType := entry.interactionType,
      reviewTimeSeconds := entry.reviewTimeSeconds,
      agentId := entry.agentId,
      metrics := calculateMetrics entry }
  (fullEntry, store ++ [fullEntry])

/-- The record returned by `getFeedbackStats` (`byInteractionType` is a
string-keyed count record in the source; it is modelled as the count
function, absent keys reading as zero). -/
structure FeedbackStats where
  totalAssessments : Nat
  autoApprovedRate : ℚ
  overrideRate : ℚ
  averageAccuracyDelta : ℚ
  confidenceCalibration : ℚ
  byInteractionType : InteractionType → Nat
  recentFeedback : List FeedbackEntry

/-- `getFeedbackStats` from the feedback module: an all-zero record on an
empty store, otherwise counts, percentage rates, the mean absolute delta,
per-type counts and `slice(-10).reverse()` of the store. -/
def getFeedbackStats (store : List FeedbackEntry) : FeedbackStats :=
  if store.isEmpty then
    { totalAssessments := 0,
      autoApprovedRate := 0,
      overrideRate := 0,
      averageAccuracyDelta := 0,
      confidenceCalibration := 0,
      byInteractionType := fun _ => 0,
      recentFeedback := [] }
  else
    let n : ℚ := (store.length : ℚ)
    let autoApproved := (store.filter fun f =>
      decide (f.interactionType = .auto_approved ∨ f.interactionType = .quick_approved)).length
    let overridden := (store.filter fun f => f.metrics.wasOverridden).length
    let avgDelta := (store.map fun f => |f.metrics.estimateAccuracyDelta|).sum / n
    let calibrationAccurate := (store.filter fun f => f.metrics.confidenceWasAccurate).length
    { totalAssessments := store.length,
      autoApprovedRate := (autoApproved : ℚ) / n * 100,
      overrideRate := (overridden : ℚ) / n * 100,
      averageAccuracyDelta := avgDelta,
      confidenceCalibration := (calibrationAccurate : ℚ) / n * 100,
      byInteractionType := fun t => (store.filter fun f => decide (f.interactionType = t)).length,
      recentFeedback := (store.drop (store.length - 10)).reverse }

/-- `getTrainingCandidates`: entries with an override whose absolute delta
exceeds 20 percent. -/
def getTrainingCandidates (store : List FeedbackEntry) : List FeedbackEntry :=
  store.filter fun f =>
    f.metrics.wasOverridden && decide (20 < |f.metrics.estimateAccuracyDelta|)

/-! ## Specification-side definitions

These definitions are written from the wording of the specification, to
be compared against the embedded code. -/

/-- Spec: the maximum severity present in a damage list under the
ordering `Severe > Moderate > Minor`, or `None` for the empty list. -/
def maxSeverity (ds : List DamageItem) : OverallSeverity :=
  ds.foldr (fun d acc => osMax (sevLift d.severity) acc) .None

/-- Spec: the contribution of item `i` to the displayed total — nothing
when the item is removed, the override value when an override is enabled
for it (an unset value reading as nothing), else the original estimated
cost. -/
def specItemContribution (damages : List DamageItem) (s : ReviewState) (i : Nat) : ℚ :=
  if s.removedItems i then 0
  else if s.overrideEnabled i then (s.adjustedCosts i).getD 0
  else (damages.getD i default).estimatedCost

/-- Spec: the sum over non-removed items of (override value if an
override is enabled, else the original estimated cost). -/
def specTotal (damages : List DamageItem) (s : ReviewState) : ℚ :=
  ((List.range damages.length).map (specItemContribution damages s)).sum

/-- Spec: the percentage delta of a feedback entry,
`(finalTotal - originalTotal) / originalTotal * 100`, and zero when the
original total is zero. -/
def specDelta (entry : FeedbackInput) : ℚ :=
  if entry.aiAssessment.totalEstimate = 0 then 0
  else (entry.agentModifications.finalTotal - entry.aiAssessment.totalEstimate) /
    entry.aiAssessment.totalEstimate * 100

/-- Spec: an override occurred when at least one cost adjustment or one
removed item exists. -/
def specWasOverridden (entry : FeedbackInput) : Bool :=
  decide (entry.agentModifications.costAdjustments ≠ []) ||
  decide (entry.agentModifications.removedItems ≠ [])

/-- Claim C8 as stated: the override direction determined by the sign of
the delta, `none` whenever no override occurred. -/
def claimDirectionBySign (wasOverridden : Bool) (delta : ℚ) : OverrideDirection :=
  if wasOverridden = false then .none
  else if 0 < delta then .increased
  else if delta < 0 then .decreased
  else .none

/-- Amended direction rule: `none` without an override, otherwise a raw
comparison of the two totals — `increased` when the final total is
larger, `decreased` otherwise (also when the totals are equal). -/
def amendedDirection (entry : FeedbackInput) : OverrideDirection :=
  if specWasOverridden entry = false then .none
  else if entry.aiAssessment.totalEstimate < entry.agentModifications.finalTotal then .increased
  else .decreased

/-- Spec: the calibration bit — high declared confidence with a small
absolute delta, or low declared confidence with a large one. -/
def specConfidenceWasAccurate (entry : FeedbackInput) : Bool :=
  decide ((85 ≤ entry.aiAssessment.aiConfidence ∧ |specDelta entry| ≤ 15) ∨
    (entry.aiAssessment.aiConfidence < 85 ∧ 15 < |specDelta entry|))

/-! ## Severity aggregation lemmas -/

theorem osMax_none (a : OverallSeverity) : osMax a .None = a := by
  cases a <;> rfl

theorem osMax_self (a : OverallSeverity) : osMax a a = a := by
  cases a <;> rfl

theorem maxSeverity_cons (d : DamageItem) (tl : List DamageItem) :
    maxSeverity (d :: tl) = osMax (sevLift d.severity) (maxSeverity tl) := rfl

/-- The chained-`some` severity expression of the generator computes the
maximum severity of any non-empty damage list. -/
theorem severityChain_eq_maxSeverity :
    ∀ ds : List DamageItem, ds ≠ [] → severityChain ds = maxSeverity ds := by
  intro ds
  induction ds with
  | nil => intro h; exact absurd rfl h
  | cons d tl ih =>
      intro _
      by_cases htl : tl = []
      · subst htl
        cases hs : d.severity <;>
          simp [severityChain, maxSeverity, osMax, osRank, sevLift, hs]
      · have ihx := ih htl
        rw [maxSeverity_cons, ← ihx]
        by_cases hS : tl.any (fun x => decide (x.severity = Severity.Severe)) = true
        · cases hs : d.severity <;>
            simp [severityChain, List.any_cons, hS, hs, osMax, osRank, sevLift]
        · by_cases hM : tl.any (fun x => decide (x.severity = Severity.Moderate)) = true
          · cases hs : d.severity <;>
              simp [severityChain, List.any_cons, hS, hM, hs, osMax, osRank, sevLift]
          · cases hs : d.severity <;>
              simp [severityChain, List.any_cons, hS, hM, hs, osMax, osRank, sevLift]

/-- The maximum severity of a non-empty list whose items all share
severity `s` is `s` itself. -/
theorem maxSeverity_const (s : Severity) :
    ∀ ds : List DamageItem, ds ≠ [] → (∀ d ∈ ds, d.severity = s) →
      maxSeverity ds = sevLift s := by
  intro ds
  induction ds with
  | nil => intro h; exact absurd rfl h
  | cons d tl ih =>
      intro _ hall
      have hd : d.severity = s := hall d (List.mem_cons_self d tl)
      by_cases htl : tl = []
      · subst htl
        rw [maxSeverity_cons]
        simp [maxSeverity, hd, osMax_none]
      · have ihx := ih htl (fun x hx => hall x (List.mem_cons_of_mem d hx))
        rw [maxSeverity_cons, ihx, hd, osMax_self]

/-! ## Override-state invariants -/

/-- Every enabled override has a defined adjusted cost.  Established by
the seeding in the override-checkbox handler. -/
def SeededInv (s : ReviewState) : Prop :=
  ∀ i, s.overrideEnabled i = true → s.adjustedCosts i ≠ none

theorem seededInv_initial : SeededInv initialReviewState := by
  intro i h
  simp [initialReviewState] at h

theorem seededInv_apply (damages : List DamageItem) (s : ReviewState)
    (a : ReviewAction) (h : SeededInv s) : SeededInv (applyAction damages s a) := by
  cases a with
  | setOverride i checked =>
      dsimp [applyAction]
      split
      · split
        · intro j hj
          by_cases hji : j = i
          · simp [hji]
          · simp only [hji, if_false] at hj ⊢
            exact h j hj
        · rename_i hseed
          intro j hj
          by_cases hji : j = i
          · subst hji
            simp only [if_pos rfl] at hj
            subst hj
            intro hc
            exact hseed ⟨rfl, hc⟩
          · simp only [hji, if_false] at hj
            exact h j hj
      · exact h
  | setAdjustedCost i v =>
      dsimp [applyAction]
      split
      · intro j hj
        by_cases hji : j = i
        · simp [hji]
        · simp only [hji, if_false]
          exact h j hj
      · exact h
  | setOverrideReason i r =>
      dsimp [applyAction]
      split
      · intro j hj
        exact h j hj
      · exact h
  | toggleRemove i =>
      dsimp [applyAction]
      split
      · split
        · intro j hj
          by_cases hji : j = i
          · simp [hji] at hj
          · simp only [hji, if_false] at hj
            exact h j hj
        · intro j hj
          exact h j hj
      · exact h

theorem seededInv_foldl (damages : List DamageItem) :
    ∀ (acts : List ReviewAction) (s : ReviewState), SeededInv s →
      SeededInv (acts.foldl (applyAction damages) s) := by
  intro acts
  induction acts with
  | nil => intro s h; exact h
  | cons a rest ih =>
      intro s h
      exact ih (applyAction damages s a) (seededInv_apply damages s a h)

theorem seededInv_run (damages : List DamageItem) (acts : List ReviewAction) :
    SeededInv (runActions damages acts) :=
  seededInv_foldl damages acts initialReviewState seededInv_initial

theorem codeItemAmount_eq_spec (damages : List DamageItem) (s : ReviewState)
    (h : SeededInv s) (i : Nat) :
    codeItemAmount damages s i = specItemContribution damages s i := by
  unfold codeItemAmount specItemContribution
  by_cases hr : s.removedItems i
  · simp [hr]
  · simp only [hr, if_false, Bool.false_eq_true]
    cases he : s.overrideEnabled i
    · simp
    · cases hc : s.adjustedCosts i with
      | none => exact absurd hc (h i he)
      | some v => simp

theorem getAdjustedTotal_eq_specTotal (damages : List DamageItem) (s : ReviewState)
    (h : SeededInv s) : getAdjustedTotal damages s = specTotal damages s := by
  unfold getAdjustedTotal specTotal
  rw [funext (codeItemAmount_eq_spec damages s h)]

/-! ## Claim theorems -/

/-- Claim C1: after any sequence of override toggles, cost edits and item
removals, the total computed by `getAdjustedTotal` — the value displayed
at every render and the value submitted by `handleContinueWithOverrides`
— equals the sum over non-removed damage items of the override value
when an override is enabled for the item, else the original estimated
cost. -/
theorem claim_C1_adjusted_total_invariant (a : AssessmentResult)
    (acts : List ReviewAction) (notes : String) :
    getAdjustedTotal a.damages (runActions a.damages acts) =
      specTotal a.damages (runActions a.damages acts) ∧
    (handleContinueWithOverrides a (runActions a.damages acts) notes).totalEstimate =
      specTotal a.damages (runActions a.damages acts) := by
  have h := getAdjustedTotal_eq_specTotal a.damages (runActions a.damages acts)
    (seededInv_run a.damages acts)
  exact ⟨h, h⟩

/-- Claim C7: from any reachable review state in which item `i` is not
removed — enabling the override for `i` seeds the adjustable value with
the original estimated cost whenever it is still unset, and in any case
leaves it defined (never an undefined or silently-zero value); disabling
the override reverts the contribution of `i` to the total to its
original cost; and removing `i` marks it removed, drops its contribution
to zero, and clears its enabled override. -/
theorem claim_C7_override_semantics (damages : List DamageItem)
    (acts : List ReviewAction) (i : Nat) (hi : i < damages.length)
    (hrem : (runActions damages acts).removedItems i = false) :
    ((runActions damages acts).adjustedCosts i = none →
      (applyAction damages (runActions damages acts) (.setOverride i true)).adjustedCosts i =
        some (damages.getD i default).estimatedCost) ∧
    (applyAction damages (runActions damages acts) (.setOverride i true)).adjustedCosts i ≠ none ∧
    codeItemAmount damages
      (applyAction damages (runActions damages acts) (.setOverride i false)) i =
      (damages.getD i default).estimatedCost ∧
    (applyAction damages (runActions damages acts) (.toggleRemove i)).removedItems i = true ∧
    codeItemAmount damages
      (applyAction damages (runActions damages acts) (.toggleRemove i)) i = 0 ∧
    (applyAction damages (runActions damages acts) (.toggleRemove i)).overrideEnabled i = false := by
  set s := runActions damages acts with hs
  refine ⟨?_, ?_, ?_, ?_, ?_, ?_⟩
  · intro hnone
    dsimp [applyAction]
    rw [if_pos ⟨hi, hrem⟩, if_pos ⟨rfl, hnone⟩]
    simp
  · cases hc : s.adjustedCosts i with
    | none =>
        dsimp [applyAction]
        rw [if_pos ⟨hi, hrem⟩, if_pos ⟨rfl, hc⟩]
        simp
    | some v =>
        dsimp [applyAction]
        rw [if_pos ⟨hi, hrem⟩]
        have : ¬((true : Bool) = true ∧ s.adjustedCosts i = none) := by
          intro hcontra
          rw [hc] at hcontra
          exact Option.noConfusion hcontra.2
        rw [if_neg this]
        simp [hc]
  · dsimp [applyAction]
    rw [if_pos ⟨hi, hrem⟩]
    simp [codeItemAmount, hrem]
  · dsimp [applyAction]
    rw [if_pos hi, if_pos hrem]
    simp [hrem]
  · dsimp [applyAction]
    rw [if_pos hi, if_pos hrem]
    simp [codeItemAmount, hrem]
  · dsimp [applyAction]
    rw [if_pos hi, if_pos hrem]
    simp

/-- The concrete single-item damage list used to witness claim C7. -/
def c7item : DamageItem :=
  { area := "Front Bumper", dtype := "Dent", severity := .Moderate,
    estimatedCost := 500, confidence := 90, partsCost := 300,
    laborHours := 2, laborRate := 115 }

theorem claim_C7_override_semantics_witness :
    ((runActions [c7item] []).adjustedCosts 0 = none →
      (applyAction [c7item] (runActions [c7item] []) (.setOverride 0 true)).adjustedCosts 0 =
        some ([c7item].getD 0 default).estimatedCost) ∧
    (applyAction [c7item] (runActions [c7item] []) (.setOverride 0 true)).adjustedCosts 0 ≠ none ∧
    codeItemAmount [c7item]
      (applyAction [c7item] (runActions [c7item] []) (.setOverride 0 false)) 0 =
      ([c7item].getD 0 default).estimatedCost ∧
    (applyAction [c7item] (runActions [c7item] []) (.toggleRemove 0)).removedItems 0 = true ∧
    codeItemAmount [c7item]
      (applyAction [c7item] (runActions [c7item] []) (.toggleRemove 0)) 0 = 0 ∧
    (applyAction [c7item] (runActions [c7item] []) (.toggleRemove 0)).overrideEnabled 0 = false :=
  claim_C7_override_semantics [c7item] [] 0 (by decide) rfl

/-! ## Fast-path eligibility (C2) -/

theorem mock_flags_iff (c : ClaimData) (n : Nat) (oc : Option ℚ)
    (os : Option Severity) (hd hio : Option Bool) (draws : MockDraws) :
    (generateMockAssessment c n oc os hd hio draws).inconsistencies ≠ [] ↔
    (generateMockAssessment c n oc os hd hio draws).hasInconsistencies = true := by
  unfold generateMockAssessment
  by_cases h : hd = some false
  · rw [if_pos h]; simp
  · rw [if_neg h]
    cases hio2 : hio.getD false <;>
      simp [hio2, mockInconsistencyFlags]

theorem mock_inconsistency_forced (c : ClaimData) (n : Nat) (oc : Option ℚ)
    (os : Option Severity) (hd : Option Bool) (draws : MockDraws) :
    (generateMockAssessment c n oc os hd (some true) draws).hasDamage = false ∨
    (generateMockAssessment c n oc os hd (some true) draws).hasInconsistencies = true := by
  unfold generateMockAssessment
  by_cases h : hd = some false
  · rw [if_pos h]; left; rfl
  · rw [if_neg h]; right; rfl

theorem simulatedBoost_hasDamage (m : AssessmentResult)
    (markers : Option (List DamageMarker)) :
    (simulatedBoost m markers).hasDamage = m.hasDamage := by
  unfold simulatedBoost
  cases markers with
  | none => rfl
  | some ms => by_cases h : 0 < ms.length <;> simp [h]

theorem simulatedBoost_hasInconsistencies (m : AssessmentResult)
    (markers : Option (List DamageMarker)) :
    (simulatedBoost m markers).hasInconsistencies = m.hasInconsistencies := by
  unfold simulatedBoost
  cases markers with
  | none => rfl
  | some ms => by_cases h : 0 < ms.length <;> simp [h]

theorem routeDecision_not_auto (m : AssessmentResult) (ms qw : Bool)
    (h : m.hasDamage = false ∨ m.hasInconsistencies = true) :
    routeDecision m ms qw ≠ .autoApprove := by
  unfold routeDecision
  split
  · intro hc; exact AnalysisRoute.noConfusion hc
  · split
    · rename_i hcond
      rcases h with h | h
      · rw [h] at hcond
        exact absurd hcond.1 (by simp)
      · rw [hcond.2.2.2.1] at h
        exact Bool.noConfusion h
    · intro hc; exact AnalysisRoute.noConfusion hc

/-- Claim C2: an assessment is fast-path (auto/quick-approval) eligible
exactly when its aggregate confidence is at least 85, its adjusted total
is at most 5000, and its inconsistency flag is clear; a mock assessment
carrying any inconsistency flag is never eligible and is never routed to
auto-approval, regardless of confidence and cost. -/
theorem claim_C2_fast_path_eligibility :
    (∀ (a : AssessmentResult) (adjustedTotal : ℚ),
      canAutoApprove a adjustedTotal = true ↔
        (85 ≤ a.aiConfidence ∧ adjustedTotal ≤ 5000 ∧ a.hasInconsistencies = false)) ∧
    (∀ (c : ClaimData) (n : Nat) (oc : Option ℚ) (os : Option Severity)
       (hd hio : Option Bool) (draws : MockDraws) (adjustedTotal : ℚ),
      (generateMockAssessment c n oc os hd hio draws).inconsistencies ≠ [] →
        canAutoApprove (generateMockAssessment c n oc os hd hio draws) adjustedTotal = false) ∧
    (∀ (c : ClaimData) (n : Nat) (tc : ℚ) (ts : Severity) (thd : Bool)
       (draws : MockDraws) (markers : Option (List DamageMarker)) (qw : Bool),
      (simulatedAnalyze c n tc ts thd true draws markers qw).2 ≠ .autoApprove) := by
  refine ⟨?_, ?_, ?_⟩
  · intro a adjustedTotal
    unfold canAutoApprove HIGH_CONFIDENCE_THRESHOLD SENIOR_APPROVAL_THRESHOLD
    simp [Bool.and_eq_true, decide_eq_true_eq, Bool.not_eq_true']
    tauto
  · intro c n oc os hd hio draws adjustedTotal hflags
    have hinc := (mock_flags_iff c n oc os hd hio draws).mp hflags
    unfold canAutoApprove
    simp [hinc]
  · intro c n tc ts thd draws markers qw
    unfold simulatedAnalyze
    apply routeDecision_not_auto
    rw [simulatedBoost_hasDamage, simulatedBoost_hasInconsistencies]
    exact mock_inconsistency_forced c n (some tc) (some ts) (some thd) draws

/-- A fixed set of random draws used by concrete witnesses: the shuffle
is the identity permutation and every numeric draw is a constant. -/
def demoDraws : MockDraws :=
  { shuffled := damageTypes,
    costJitter := fun _ => 0,
    baseConf := fun _ => 80,
    ovParts := fun _ => 400,
    ovLaborHalf := fun _ => 2,
    claimTag := "DEMO",
    procTime := 2 }

/-- A fixed claim record used by concrete witnesses. -/
def demoClaim : ClaimData :=
  { policyNumber := "POL-123456", vehicleMake := "Toyota",
    vehicleModel := "Camry", vehicleYear := "2021",
    accidentDate := "2025-01-15", accidentDescription := "Rear-ended at light" }

/-- A flag-free assessment with confidence 90, used to witness C2 at the
spec routing example (confidence 90, total 3000, no flags). -/
def a90 : AssessmentResult :=
  { claimId := "CLM-A90", overallSeverity := .Moderate, hasDamage := true,
    damages := [c7item], totalEstimate := 3000, laborHours := 4,
    partsRequired := [], aiConfidence := 90, recommendations := [],
    processingTime := 2, summary := none, humanAssisted := false,
    manualOverrides := none, overrideNotes := none,
    hasInconsistencies := false, inconsistencies := [] }

theorem claim_C2_fast_path_eligibility_witness :
    (canAutoApprove a90 3000 = true ↔
      (85 ≤ a90.aiConfidence ∧ (3000 : ℚ) ≤ 5000 ∧ a90.hasInconsistencies = false)) ∧
    (generateMockAssessment demoClaim 3 (some 90) (some .Moderate) (some true)
        (some true) demoDraws).inconsistencies ≠ [] ∧
    canAutoApprove (generateMockAssessment demoClaim 3 (some 90) (some .Moderate)
        (some true) (some true) demoDraws) 3000 = false ∧
    (simulatedAnalyze demoClaim 3 90 .Moderate true true demoDraws none true).2 ≠
      .autoApprove :=
  ⟨claim_C2_fast_path_eligibility.1 a90 3000,
   by decide,
   claim_C2_fast_path_eligibility.2.1 demoClaim 3 (some 90) (some .Moderate)
     (some true) (some true) demoDraws 3000 (by decide),
   claim_C2_fast_path_eligibility.2.2 demoClaim 3 90 .Moderate true demoDraws none true⟩

/-! ## Overall severity (C3) -/

theorem mockSelectedDamages_length_pos (n : Nat) (oc : Option ℚ)
    (os : Option Severity) (draws : MockDraws)
    (hlen : draws.shuffled.length = damageTypes.length) :
    0 < (mockSelectedDamages n oc os draws).length := by
  have h8 : damageTypes.length = 8 := rfl
  have hnumle : min (max 2 n) damageTypes.length ≤ draws.shuffled.length := by
    rw [hlen]; exact min_le_right _ _
  have hpicked : (draws.shuffled.take (min (max 2 n) damageTypes.length)).length =
      min (max 2 n) damageTypes.length := by
    rw [List.length_take]
    exact min_eq_left hnumle
  have hnum2 : 2 ≤ min (max 2 n) damageTypes.length := by
    rw [h8]
    exact le_min (le_max_left 2 n) (by norm_num)
  have hpos : 0 < min (max 2 n) damageTypes.length :=
    Nat.lt_of_lt_of_le (by norm_num) hnum2
  unfold mockSelectedDamages
  cases os with
  | none =>
      dsimp only
      rw [length_mapWithIndex, hpicked]
      exact hpos
  | some s =>
      cases s with
      | Minor =>
          dsimp only
          rw [length_mapWithIndex, List.length_take, length_mapWithIndex, hpicked]
          rw [min_eq_left hnum2]
          have h2 : min 2 (min (max 2 n) damageTypes.length) = 2 := min_eq_left hnum2
          omega
      | Moderate =>
          dsimp only
          rw [length_mapWithIndex, length_mapWithIndex, hpicked]
          exact hpos
      | Severe =>
          dsimp only
          rw [length_mapWithIndex, length_mapWithIndex, hpicked]
          exact hpos

theorem mockSelectedDamages_severity_override (n : Nat) (oc : Option ℚ)
    (s : Severity) (draws : MockDraws) :
    ∀ d ∈ mockSelectedDamages n oc (some s) draws, d.severity = s := by
  unfold mockSelectedDamages
  cases s with
  | Minor =>
      dsimp only
      exact @forall_mem_mapWithIndex _ _ _
        (fun (d : DamageItem) => d.severity = Severity.Minor) (fun _ _ => rfl) _
  | Moderate =>
      dsimp only
      exact @forall_mem_mapWithIndex _ _ _
        (fun (d : DamageItem) => d.severity = Severity.Moderate) (fun _ _ => rfl) _
  | Severe =>
      dsimp only
      exact @forall_mem_mapWithIndex _ _ _
        (fun (d : DamageItem) => d.severity = Severity.Severe) (fun _ _ => rfl) _

/-- The damage branch of the generator returns `mockSelectedDamages` as
its damage list and computes overall severity from the override or the
chained-`some` expression. -/
theorem generateMock_damage_branch (c : ClaimData) (n : Nat) (oc : Option ℚ)
    (os : Option Severity) (hd hio : Option Bool) (draws : MockDraws)
    (h : hd ≠ some false) :
    (generateMockAssessment c n oc os hd hio draws).damages =
      mockSelectedDamages n oc os draws ∧
    (generateMockAssessment c n oc os hd hio draws).overallSeverity =
      (match os with
       | some s => sevLift s
       | none => severityChain (mockSelectedDamages n oc os draws)) := by
  unfold generateMockAssessment
  rw [if_neg h]
  exact ⟨rfl, rfl⟩

/-- Claim C3: the overall severity reported by the assessment generator
always equals the maximum severity present among its damage items under
the ordering `Severe > Moderate > Minor`, and `None` when the damage
list is empty. -/
theorem claim_C3_overall_severity_is_max (c : ClaimData) (n : Nat)
    (oc : Option ℚ) (os : Option Severity) (hd hio : Option Bool)
    (draws : MockDraws) (hshuf : draws.shuffled.Perm damageTypes) :
    (generateMockAssessment c n oc os hd hio draws).overallSeverity =
      maxSeverity (generateMockAssessment c n oc os hd hio draws).damages := by
  have hlen : draws.shuffled.length = damageTypes.length := hshuf.length_eq
  by_cases h : hd = some false
  · unfold generateMockAssessment
    rw [if_pos h]
    rfl
  · obtain ⟨hdam, hsev⟩ := generateMock_damage_branch c n oc os hd hio draws h
    rw [hdam, hsev]
    have hne : mockSelectedDamages n oc os draws ≠ [] :=
      List.ne_nil_of_length_pos (mockSelectedDamages_length_pos n oc os draws hlen)
    cases os with
    | none =>
        dsimp only
        exact severityChain_eq_maxSeverity _ hne
    | some s =>
        dsimp only
        exact (maxSeverity_const s _ hne
          (mockSelectedDamages_severity_override n oc s draws)).symm

theorem claim_C3_overall_severity_is_max_witness :
    (generateMockAssessment demoClaim 3 (some 90) none (some true) (some false)
        demoDraws).overallSeverity =
      maxSeverity (generateMockAssessment demoClaim 3 (some 90) none (some true)
        (some false) demoDraws).damages :=
  claim_C3_overall_severity_is_max demoClaim 3 (some 90) none (some true)
    (some false) demoDraws (List.Perm.refl _)

/-! ## Aggregate confidence (C4) -/

theorem sum_div_length_bounds (l : List ℚ) (hne : l ≠ [])
    (h : ∀ x ∈ l, 0 ≤ x ∧ x ≤ 100) :
    0 ≤ l.sum / (l.length : ℚ) ∧ l.sum / (l.length : ℚ) ≤ 100 := by
  have hlen : 0 < ((l.length : ℚ)) := by
    have hp : 0 < l.length := List.length_pos.mpr hne
    exact_mod_cast hp
  constructor
  · exact div_nonneg (List.sum_nonneg fun x hx => (h x hx).1) (le_of_lt hlen)
  · rw [div_le_iff₀ hlen]
    calc l.sum ≤ l.length • (100 : ℚ) :=
          List.sum_le_card_nsmul l 100 fun x hx => (h x hx).2
      _ = 100 * (l.length : ℚ) := by rw [nsmul_eq_mul]; ring

theorem ratFloor_bounds (q : ℚ) (h0 : 0 ≤ q) (h100 : q ≤ 100) :
    0 ≤ ratFloor q ∧ ratFloor q ≤ 100 := by
  unfold ratFloor
  constructor
  · exact_mod_cast Int.floor_nonneg.mpr h0
  · have h1 : ⌊q⌋ ≤ ⌊(100 : ℚ)⌋ := Int.floor_le_floor h100
    have h2 : ⌊(100 : ℚ)⌋ = 100 := by norm_num
    rw [h2] at h1
    exact_mod_cast h1

theorem jsRound_bounds (q : ℚ) (h0 : 0 ≤ q) (h100 : q ≤ 100) :
    0 ≤ jsRound q ∧ jsRound q ≤ 100 := by
  unfold jsRound
  constructor
  · have hz : (0 : ℤ) ≤ ⌊q + 1/2⌋ := Int.floor_nonneg.mpr (by linarith)
    exact_mod_cast hz
  · have h1 : ⌊q + 1/2⌋ ≤ ⌊(201 : ℚ)/2⌋ := Int.floor_le_floor (by linarith)
    have h2 : ⌊(201 : ℚ)/2⌋ = 100 := by norm_num [Int.floor_eq_iff]
    rw [h2] at h1
    exact_mod_cast h1

theorem generateMock_no_damage_confidence (c : ClaimData) (n : Nat)
    (oc : Option ℚ) (os : Option Severity) (hio : Option Bool) (draws : MockDraws) :
    (generateMockAssessment c n oc os (some false) hio draws).aiConfidence = oc.getD 85 ∧
    (generateMockAssessment c n oc os (some false) hio draws).damages = [] := by
  unfold generateMockAssessment
  rw [if_pos rfl]
  exact ⟨rfl, rfl⟩

theorem generateMock_aiConfidence_floor (c : ClaimData) (n : Nat)
    (os : Option Severity) (hd hio : Option Bool) (draws : MockDraws)
    (h : hd ≠ some false) :
    (generateMockAssessment c n none os hd hio draws).aiConfidence =
      ratFloor
        (((generateMockAssessment c n none os hd hio draws).damages.map
            (·.confidence)).sum /
          (((generateMockAssessment c n none os hd hio draws).damages.length : ℚ))) := by
  obtain ⟨hdam, _⟩ := generateMock_damage_branch c n none os hd hio draws h
  conv_rhs => rw [hdam]
  unfold generateMockAssessment
  rw [if_neg h]
  rfl

/-- The claim C4 counterexample input: an API analysis with two damage
items of confidence 70 and 71, whose mean is 70.5. -/
def apiTwo : ApiAnalysis :=
  { hasDamage := true, summary := "two dents",
    damages := [ { c7item with confidence := 70 }, { c7item with confidence := 71 } ],
    overallSeverity := .Moderate, laborHours := 3, partsRequired := [],
    recommendations := [], hasInconsistencies := false, inconsistencies := [] }

/-- Counterexample to claim C4 as stated: the `/api/analyze` route
aggregates with `Math.round`, not with rounding down — on per-item
confidences 70 and 71 it reports 71 where the floor of the mean is 70. -/
theorem claim_C4_counterexample :
    routeAvgConfidence apiTwo = 71 ∧
    ratFloor ((apiTwo.damages.map (·.confidence)).sum / ((apiTwo.damages.length : ℚ))) = 70 ∧
    routeAvgConfidence apiTwo ≠
      ratFloor ((apiTwo.damages.map (·.confidence)).sum / ((apiTwo.damages.length : ℚ))) := by
  have h1 : routeAvgConfidence apiTwo = 71 := by
    unfold routeAvgConfidence apiTwo jsRound
    norm_num [c7item]
  have h2 : ratFloor ((apiTwo.damages.map (·.confidence)).sum /
      ((apiTwo.damages.length : ℚ))) = 70 := by
    unfold apiTwo ratFloor
    norm_num [c7item, Int.floor_eq_iff]
  refine ⟨h1, h2, ?_⟩
  rw [h1, h2]
  norm_num

/-- Claim C4, amended: the mock generator aggregates per-item confidences
by flooring their arithmetic mean when damage items exist (default 85
when no damage and no override confidence), while the `/api/analyze`
route rounds the mean to the nearest integer, half up (default 95 when
the damage list is empty); in both cases the aggregate lies between 0
and 100 inclusive whenever every per-item confidence does. -/
theorem claim_C4_aggregate_confidence (c : ClaimData) (n : Nat)
    (os : Option Severity) (hd hio : Option Bool) (draws : MockDraws)
    (hd' : hd ≠ some false) (hshuf : draws.shuffled.Perm damageTypes) :
    ((generateMockAssessment c n none os hd hio draws).aiConfidence =
      ratFloor
        (((generateMockAssessment c n none os hd hio draws).damages.map
            (·.confidence)).sum /
          (((generateMockAssessment c n none os hd hio draws).damages.length : ℚ)))) ∧
    ((generateMockAssessment c n none os (some false) hio draws).aiConfidence = 85 ∧
      (generateMockAssessment c n none os (some false) hio draws).damages = []) ∧
    (∀ a : ApiAnalysis, a.damages ≠ [] →
      routeAvgConfidence a =
        jsRound ((a.damages.map (·.confidence)).sum / ((a.damages.length : ℚ)))) ∧
    (∀ a : ApiAnalysis, a.damages = [] → routeAvgConfidence a = 95) ∧
    ((∀ d ∈ (generateMockAssessment c n none os hd hio draws).damages,
        0 ≤ d.confidence ∧ d.confidence ≤ 100) →
      0 ≤ (generateMockAssessment c n none os hd hio draws).aiConfidence ∧
        (generateMockAssessment c n none os hd hio draws).aiConfidence ≤ 100) ∧
    (∀ a : ApiAnalysis,
      (∀ d ∈ a.damages, 0 ≤ d.confidence ∧ d.confidence ≤ 100) →
      0 ≤ routeAvgConfidence a ∧ routeAvgConfidence a ≤ 100) := by
  refine ⟨generateMock_aiConfidence_floor c n os hd hio draws hd', ?_, ?_, ?_, ?_, ?_⟩
  · exact generateMock_no_damage_confidence c n none os hio draws
  · intro a ha
    unfold routeAvgConfidence
    rw [if_pos (List.length_pos.mpr ha)]
  · intro a ha
    unfold routeAvgConfidence
    rw [if_neg (by rw [ha]; simp)]
  · intro hconf
    obtain ⟨hdam, _⟩ := generateMock_damage_branch c n none os hd hio draws hd'
    have hne : (generateMockAssessment c n none os hd hio draws).damages ≠ [] := by
      rw [hdam]
      exact List.ne_nil_of_length_pos
        (mockSelectedDamages_length_pos n none os draws hshuf.length_eq)
    have hmapne : ((generateMockAssessment c n none os hd hio draws).damages.map
        (·.confidence)) ≠ [] := by
      simpa using hne
    have hmem : ∀ x ∈ (generateMockAssessment c n none os hd hio draws).damages.map
        (·.confidence), 0 ≤ x ∧ x ≤ 100 := by
      intro x hx
      obtain ⟨d, hdm, rfl⟩ := List.mem_map.mp hx
      exact hconf d hdm
    have hb := sum_div_length_bounds _ hmapne hmem
    rw [List.length_map] at hb
    rw [generateMock_aiConfidence_floor c n os hd hio draws hd']
    exact ratFloor_bounds _ hb.1 hb.2
  · intro a hconf
    unfold routeAvgConfidence
    by_cases hlen : 0 < a.damages.length
    · rw [if_pos hlen]
      have hne : a.damages.map (·.confidence) ≠ [] := by
        have : a.damages ≠ [] := List.ne_nil_of_length_pos hlen
        simpa using this
      have hmem : ∀ x ∈ a.damages.map (·.confidence), 0 ≤ x ∧ x ≤ 100 := by
        intro x hx
        obtain ⟨d, hdm, rfl⟩ := List.mem_map.mp hx
        exact hconf d hdm
      have hb := sum_div_length_bounds _ hne hmem
      rw [List.length_map] at hb
      exact jsRound_bounds _ hb.1 hb.2
    · rw [if_neg hlen]
      norm_num

theorem claim_C4_aggregate_confidence_witness :
    ((generateMockAssessment demoClaim 4 none none (some true) (some false)
        demoDraws).aiConfidence =
      ratFloor
        (((generateMockAssessment demoClaim 4 none none (some true) (some false)
            demoDraws).damages.map (·.confidence)).sum /
          (((generateMockAssessment demoClaim 4 none none (some true) (some false)
            demoDraws).damages.length : ℚ)))) ∧
    ((generateMockAssessment demoClaim 4 none none (some false) (some false)
        demoDraws).aiConfidence = 85 ∧
      (generateMockAssessment demoClaim 4 none none (some false) (some false)
        demoDraws).damages = []) ∧
    (∀ a : ApiAnalysis, a.damages ≠ [] →
      routeAvgConfidence a =
        jsRound ((a.damages.map (·.confidence)).sum / ((a.damages.length : ℚ)))) ∧
    (∀ a : ApiAnalysis, a.damages = [] → routeAvgConfidence a = 95) ∧
    ((∀ d ∈ (generateMockAssessment demoClaim 4 none none (some true) (some false)
        demoDraws).damages, 0 ≤ d.confidence ∧ d.confidence ≤ 100) →
      0 ≤ (generateMockAssessment demoClaim 4 none none (some true) (some false)
          demoDraws).aiConfidence ∧
        (generateMockAssessment demoClaim 4 none none (some true) (some false)
          demoDraws).aiConfidence ≤ 100) ∧
    (∀ a : ApiAnalysis,
      (∀ d ∈ a.damages, 0 ≤ d.confidence ∧ d.confidence ≤ 100) →
      0 ≤ routeAvgConfidence a ∧ routeAvgConfidence a ≤ 100) :=
  claim_C4_aggregate_confidence demoClaim 4 none (some true) (some false) demoDraws
    (by decide) (List.Perm.refl _)

/-! ## Human-marker flow (C5) -/

/-- The claim C5 counterexample input: a successful live API body with
confidence 60 and damage detected. -/
def r60 : ApiResponseBody :=
  { hasDamage := true, overallSeverity := some .Moderate,
    damages := some [c7item], totalEstimate := some 500,
    laborHours := some 2, partsRequired := some [],
    aiConfidence := some 60, recommendations := some [],
    summary := some "dent", hasInconsistencies := some false,
    inconsistencies := some [] }

/-- A single human marker. -/
def m0 : DamageMarker := { x := 40, y := 55, imageIndex := 0, description := none }

/-- Counterexample to claim C5 as stated: in live mode, re-running the
analysis with a marker marks the result human-assisted but applies no
confidence boost — with an API confidence of 60 the result keeps 60
instead of the claimed `min 95 (60 + 15) = 75`. -/
theorem claim_C5_counterexample :
    (processLiveResult r60 (some [m0]) "CTX" 1).humanAssisted = true ∧
    (processLiveResult r60 (some [m0]) "CTX" 1).aiConfidence = 60 ∧
    (processLiveResult r60 (some [m0]) "CTX" 1).aiConfidence ≠
      min 95 ((60 : ℚ) + 15) := by
  refine ⟨rfl, rfl, ?_⟩
  intro hcontra
  norm_num [processLiveResult, r60] at hcontra

/-- Claim C5, amended: when the aggregate confidence is below 70, damage
was detected and no markers were supplied yet, both the simulated and
the live branch request human point-marking instead of proceeding; a
simulated re-run with at least one marker boosts the confidence by a
fixed 15 capped at 95 and marks the result human-assisted; a live
re-run marks the result human-assisted but applies no client-side boost
— its confidence is taken from the API response unchanged. -/
theorem claim_C5_human_marker_flow :
    (∀ (c : ClaimData) (n : Nat) (tc : ℚ) (ts : Severity) (thd thi : Bool)
       (draws : MockDraws) (qw : Bool),
      (simulatedAnalyze c n tc ts thd thi draws none qw).1.aiConfidence < 70 →
      (simulatedAnalyze c n tc ts thd thi draws none qw).1.hasDamage = true →
      (simulatedAnalyze c n tc ts thd thi draws none qw).2 = .needsHumanInput) ∧
    (∀ a : AssessmentResult, a.aiConfidence < 70 → a.hasDamage = true →
      liveRoute a none = .needsHumanInput) ∧
    (∀ (c : ClaimData) (n : Nat) (tc : ℚ) (ts : Severity) (thd thi : Bool)
       (draws : MockDraws) (qw : Bool) (ms : List DamageMarker), ms ≠ [] →
      (simulatedAnalyze c n tc ts thd thi draws (some ms) qw).1.aiConfidence =
        min 95 ((generateMockAssessment c n (some tc) (some ts) (some thd)
          (some thi) draws).aiConfidence + 15) ∧
      (simulatedAnalyze c n tc ts thd thi draws (some ms) qw).1.humanAssisted = true) ∧
    (∀ (r : ApiResponseBody) (markers : Option (List DamageMarker))
       (tag : String) (pt : ℚ),
      (processLiveResult r markers tag pt).aiConfidence = r.aiConfidence.getD 0) ∧
    (∀ (r : ApiResponseBody) (ms : List DamageMarker) (tag : String) (pt : ℚ),
      ms ≠ [] → (processLiveResult r (some ms) tag pt).humanAssisted = true) := by
  refine ⟨?_, ?_, ?_, ?_, ?_⟩
  · intro c n tc ts thd thi draws qw h1 h2
    unfold simulatedAnalyze at h1 h2 ⊢
    dsimp only at h1 h2 ⊢
    unfold routeDecision
    rw [if_pos ?_]
    have hconf : (70 : ℚ) = LOW_CONFIDENCE_THRESHOLD := rfl
    exact ⟨by rw [← hconf]; exact h1, rfl, h2⟩
  · intro a h1 h2
    unfold liveRoute
    rw [if_pos ?_]
    exact ⟨h1, rfl, h2⟩
  · intro c n tc ts thd thi draws qw ms hms
    have hlen : 0 < ms.length := List.length_pos.mpr hms
    unfold simulatedAnalyze simulatedBoost
    simp [hlen]
  · intro r markers tag pt
    rfl
  · intro r ms tag pt hms
    have hlen : 0 < ms.length := List.length_pos.mpr hms
    unfold processLiveResult
    dsimp only
    simp [hlen]

theorem claim_C5_human_marker_flow_witness :
    ((simulatedAnalyze demoClaim 3 60 .Moderate true false demoDraws none true).1.aiConfidence
        < 70 ∧
      (simulatedAnalyze demoClaim 3 60 .Moderate true false demoDraws none true).1.hasDamage
        = true ∧
      (simulatedAnalyze demoClaim 3 60 .Moderate true false demoDraws none true).2 =
        .needsHumanInput) ∧
    ((simulatedAnalyze demoClaim 3 60 .Moderate true false demoDraws (some [m0])
        true).1.aiConfidence =
      min 95 ((generateMockAssessment demoClaim 3 (some 60) (some .Moderate)
        (some true) (some false) demoDraws).aiConfidence + 15) ∧
      (simulatedAnalyze demoClaim 3 60 .Moderate true false demoDraws (some [m0])
        true).1.humanAssisted = true) ∧
    (processLiveResult r60 (some [m0]) "CTX" 1).aiConfidence =
      r60.aiConfidence.getD 0 ∧
    (processLiveResult r60 (some [m0]) "CTX" 1).humanAssisted = true :=
  ⟨⟨by decide, by decide,
    claim_C5_human_marker_flow.1 demoClaim 3 60 .Moderate true false demoDraws true
      (by decide) (by decide)⟩,
   claim_C5_human_marker_flow.2.2.1 demoClaim 3 60 .Moderate true false demoDraws true
     [m0] (by decide),
   claim_C5_human_marker_flow.2.2.2.1 r60 (some [m0]) "CTX" 1,
   claim_C5_human_marker_flow.2.2.2.2 r60 [m0] "CTX" 1 (by decide)⟩

/-! ## Approval level (C6) -/

/-- Claim C6: an agent-review approval produces approval level `senior`
exactly when the adjusted total exceeds the 5000 senior-approval ceiling
or the overall severity is `Severe`, and level `agent` otherwise. -/
theorem claim_C6_approval_level (assessment : AssessmentResult)
    (adjustedDamages : List DamageItem) (agentNotes : String) :
    ((handleApprove assessment adjustedDamages agentNotes).approvalLevel = .senior ↔
      (5000 < agentReviewTotal adjustedDamages ∨
        assessment.overallSeverity = .Severe)) ∧
    ((handleApprove assessment adjustedDamages agentNotes).approvalLevel = .agent ↔
      ¬(5000 < agentReviewTotal adjustedDamages ∨
        assessment.overallSeverity = .Severe)) := by
  unfold handleApprove SENIOR_APPROVAL_THRESHOLD
  dsimp only
  split_ifs with h <;>
    constructor <;>
    simp [h]

/-! ## Feedback metrics (C8) -/

/-- A feedback snapshot helper used by concrete feedback entries. -/
def fbSnap (orig conf : ℚ) : AiAssessmentSnapshot :=
  { damages := [], totalEstimate := orig, aiConfidence := conf,
    overallSeverity := "Moderate" }

/-- Counterexample entry: original total 0, final total 1200, one cost
adjustment recorded. -/
def fbZeroOrig : FeedbackInput :=
  { claimId := "CLM-FB1", aiAssessment := fbSnap 0 90,
    agentModifications :=
      { costAdjustments :=
          [ { damageIndex := 0, originalCost := 0, adjustedCost := 1200,
              reason := "missed item added" } ],
        removedItems := [], addedNotes := "", finalTotal := 1200 },
    interactionType := .agent_reviewed, reviewTimeSeconds := 60,
    agentId := "AGT-1" }

/-- Counterexample entry: original total 1000, final total 1000, one
removed item recorded. -/
def fbEqualTotals : FeedbackInput :=
  { claimId := "CLM-FB2", aiAssessment := fbSnap 1000 90,
    agentModifications :=
      { costAdjustments := [], removedItems := [3], addedNotes := "",
        finalTotal := 1000 },
    interactionType := .agent_reviewed, reviewTimeSeconds := 60,
    agentId := "AGT-2" }

/-- Counterexample to claim C8 as stated: `overrideDirection` is not a
function of the sign of the stored delta.  Two entries with identical
delta 0 and an override recorded receive directions `increased` and
`decreased` respectively (the code compares the raw totals), and the
equal-totals entry receives `decreased` where the sign rule of the claim
yields `none`. -/
theorem claim_C8_counterexample :
    (calculateMetrics fbZeroOrig).estimateAccuracyDelta = 0 ∧
    (calculateMetrics fbEqualTotals).estimateAccuracyDelta = 0 ∧
    (calculateMetrics fbZeroOrig).wasOverridden = true ∧
    (calculateMetrics fbEqualTotals).wasOverridden = true ∧
    (calculateMetrics fbZeroOrig).overrideDirection = .increased ∧
    (calculateMetrics fbEqualTotals).overrideDirection = .decreased ∧
    (calculateMetrics fbEqualTotals).overrideDirection ≠
      claimDirectionBySign (calculateMetrics fbEqualTotals).wasOverridden
        (calculateMetrics fbEqualTotals).estimateAccuracyDelta := by
  have hov1 : (calculateMetrics fbZeroOrig).wasOverridden = true := by
    simp [calculateMetrics, fbZeroOrig]
  have hov2 : (calculateMetrics fbEqualTotals).wasOverridden = true := by
    simp [calculateMetrics, fbEqualTotals]
  have hd1 : (calculateMetrics fbZeroOrig).estimateAccuracyDelta = 0 := by
    simp [calculateMetrics, fbZeroOrig, fbSnap]
  have hd2 : (calculateMetrics fbEqualTotals).estimateAccuracyDelta = 0 := by
    simp [calculateMetrics, fbEqualTotals, fbSnap]
  have hdir1 : (calculateMetrics fbZeroOrig).overrideDirection = .increased := by
    simp [calculateMetrics, fbZeroOrig, fbSnap]
  have hdir2 : (calculateMetrics fbEqualTotals).overrideDirection = .decreased := by
    simp [calculateMetrics, fbEqualTotals, fbSnap]
  refine ⟨hd1, hd2, hov1, hov2, hdir1, hdir2, ?_⟩
  rw [hdir2, hov2, hd2]
  simp [claimDirectionBySign]

/-- Claim C8, amended: `recordFeedback` stores metrics computed at
insertion time satisfying: the delta is
`(finalTotal - originalTotal) / originalTotal * 100` and 0 when the
original total is 0 (given a non-negative original total);
`wasOverridden` holds exactly when a cost adjustment or removed item
exists; `overrideDirection` is `none` when no override occurred (even if
the totals differ), otherwise `increased` when the final total exceeds
the original and `decreased` otherwise — a raw comparison of totals, not
the sign of the delta; and `confidenceWasAccurate` holds exactly when
confidence at least 85 coincides with an absolute delta of at most 15,
or confidence below 85 with an absolute delta above 15. -/
theorem claim_C8_feedback_metrics (store : List FeedbackEntry)
    (entry : FeedbackInput) (freshId now : String)
    (horig : 0 ≤ entry.aiAssessment.totalEstimate) :
    (recordFeedback store entry freshId now).1.metrics = calculateMetrics entry ∧
    (recordFeedback store entry freshId now).2 =
      store ++ [(recordFeedback store entry freshId now).1] ∧
    (calculateMetrics entry).estimateAccuracyDelta = specDelta entry ∧
    (calculateMetrics entry).wasOverridden = specWasOverridden entry ∧
    (calculateMetrics entry).overrideDirection = amendedDirection entry ∧
    (calculateMetrics entry).confidenceWasAccurate =
      specConfidenceWasAccurate entry := by
  have hdelta : (calculateMetrics entry).estimateAccuracyDelta = specDelta entry := by
    unfold calculateMetrics specDelta
    dsimp only
    rcases lt_or_eq_of_le horig with h | h
    · rw [if_pos h, if_neg (by linarith)]
    · rw [if_neg (by linarith), if_pos h.symm]
  refine ⟨rfl, rfl, hdelta, rfl, rfl, ?_⟩
  have habs : |(calculateMetrics entry).estimateAccuracyDelta| = |specDelta entry| := by
    rw [hdelta]
  unfold calculateMetrics at habs ⊢
  unfold specConfidenceWasAccurate
  dsimp only at habs ⊢
  by_cases h85 : (85 : ℚ) ≤ entry.aiAssessment.aiConfidence
  · rw [if_pos h85]
    by_cases h15 : 15 < |specDelta entry|
    · rw [habs]
      simp [h15, h85, not_le.mpr h15]
    · rw [habs]
      simp [h15, h85, not_lt.mp h15]
  · rw [if_neg h85]
    by_cases h15 : 15 < |specDelta entry|
    · rw [habs]
      simp [h15, h85, lt_of_not_le h85]
    · rw [habs]
      simp [h15, h85, not_lt.mp h15, lt_of_not_le h85]

/-- The spec example entry: original total 1000, final total 1200, one
adjustment recorded. -/
def fbSpecExample : FeedbackInput :=
  { claimId := "CLM-FB3", aiAssessment := fbSnap 1000 90,
    agentModifications :=
      { costAdjustments :=
          [ { damageIndex := 0, originalCost := 500, adjustedCost := 700,
              reason := "paint blend needed" } ],
        removedItems := [], addedNotes := "", finalTotal := 1200 },
    interactionType := .agent_reviewed, reviewTimeSeconds := 90,
    agentId := "AGT-3" }

theorem claim_C8_feedback_metrics_witness :
    (recordFeedback [] fbSpecExample "FB-1" "T0").1.metrics =
      calculateMetrics fbSpecExample ∧
    (recordFeedback [] fbSpecExample "FB-1" "T0").2 =
      [] ++ [(recordFeedback [] fbSpecExample "FB-1" "T0").1] ∧
    (calculateMetrics fbSpecExample).estimateAccuracyDelta = specDelta fbSpecExample ∧
    (calculateMetrics fbSpecExample).wasOverridden = specWasOverridden fbSpecExample ∧
    (calculateMetrics fbSpecExample).overrideDirection = amendedDirection fbSpecExample ∧
    (calculateMetrics fbSpecExample).confidenceWasAccurate =
      specConfidenceWasAccurate fbSpecExample :=
  claim_C8_feedback_metrics [] fbSpecExample "FB-1" "T0" (by decide)

/-! ## Feedback statistics (C9) -/

/-- Claim C9: `getFeedbackStats` on an empty log returns zero for the
count and every numeric rate/average (never NaN or undefined), an empty
by-type grouping and an empty recent list, raising no exception (the
function is total); on a non-empty log it returns the entry count, the
percentage of auto/quick-approved entries, the percentage with any
override, the mean absolute delta, the percentage with accurate
confidence, counts grouped by interaction type, and the most recent 10
entries newest first. -/
theorem claim_C9_feedback_stats :
    ((getFeedbackStats []).totalAssessments = 0 ∧
     (getFeedbackStats []).autoApprovedRate = 0 ∧
     (getFeedbackStats []).overrideRate = 0 ∧
     (getFeedbackStats []).averageAccuracyDelta = 0 ∧
     (getFeedbackStats []).confidenceCalibration = 0 ∧
     (∀ t, (getFeedbackStats []).byInteractionType t = 0) ∧
     (getFeedbackStats []).recentFeedback = []) ∧
    (∀ store : List FeedbackEntry, store ≠ [] →
      (getFeedbackStats store).totalAssessments = store.length ∧
      (getFeedbackStats store).autoApprovedRate =
        100 * ((store.filter fun f =>
          decide (f.interactionType = .auto_approved ∨
            f.interactionType = .quick_approved)).length : ℚ) / (store.length : ℚ) ∧
      (getFeedbackStats store).overrideRate =
        100 * ((store.filter fun f => f.metrics.wasOverridden).length : ℚ) /
          (store.length : ℚ) ∧
      (getFeedbackStats store).averageAccuracyDelta =
        (store.map fun f => |f.metrics.estimateAccuracyDelta|).sum /
          (store.length : ℚ) ∧
      (getFeedbackStats store).confidenceCalibration =
        100 * ((store.filter fun f => f.metrics.confidenceWasAccurate).length : ℚ) /
          (store.length : ℚ) ∧
      (∀ t, (getFeedbackStats store).byInteractionType t =
        (store.filter fun f => decide (f.interactionType = t)).length) ∧
      (getFeedbackStats store).recentFeedback = store.reverse.take 10) := by
  constructor
  · exact ⟨rfl, rfl, rfl, rfl, rfl, fun t => rfl, rfl⟩
  · intro store hne
    have hemp : store.isEmpty = false := by
      cases store with
      | nil => exact absurd rfl hne
      | cons x xs => rfl
    unfold getFeedbackStats
    rw [hemp, if_neg Bool.false_ne_true]
    dsimp only
    refine ⟨rfl, by ring, by ring, rfl, by ring, fun t => rfl, ?_⟩
    rw [List.take_reverse]

theorem claim_C9_feedback_stats_witness :
    (getFeedbackStats [(recordFeedback [] fbSpecExample "FB-1" "T0").1]).totalAssessments =
        [(recordFeedback [] fbSpecExample "FB-1" "T0").1].length ∧
    (getFeedbackStats [(recordFeedback [] fbSpecExample "FB-1" "T0").1]).recentFeedback =
        [(recordFeedback [] fbSpecExample "FB-1" "T0").1].reverse.take 10 :=
  ⟨((claim_C9_feedback_stats.2 [(recordFeedback [] fbSpecExample "FB-1" "T0").1]
      (by simp)).1),
   ((claim_C9_feedback_stats.2 [(recordFeedback [] fbSpecExample "FB-1" "T0").1]
      (by simp)).2.2.2.2.2.2)⟩

/-! ## External-call failure fallback (C10) -/

/-- Claim C10: whenever the single external call fails — for any failure
message, including the one produced by the route when the model reply is
not valid JSON — the live analysis run substitutes the locally
synthesized assessment produced by `generateMockAssessment` (the same
generator test/demo mode uses, here with its default parameters),
annotates its summary with the error, records the error note, leaves the
analyzing state (the workflow is not blocked), performs exactly one
external call (no retry), and routes to standard review; and the
`/api/analyze` route turns an unparsable model reply into the 500 error
"Invalid response format from AI", which the client treats as any other
failure. -/
theorem claim_C10_failure_fallback :
    (∀ (c : ClaimData) (n : Nat) (draws : MockDraws)
       (markers : Option (List DamageMarker)) (tag : String) (pt : ℚ)
       (msg : String),
      (analyzeLiveImages c n draws markers tag pt (.failure msg)).assessment =
        some { generateMockAssessment c n none none none none draws with
               summary := some ("[API Error] " ++ msg ++ " - using simulated data") } ∧
      (analyzeLiveImages c n draws markers tag pt (.failure msg)).isAnalyzing = false ∧
      (analyzeLiveImages c n draws markers tag pt (.failure msg)).errorNote = some msg ∧
      (analyzeLiveImages c n draws markers tag pt (.failure msg)).apiCallCount = 1 ∧
      (analyzeLiveImages c n draws markers tag pt (.failure msg)).route = .review) ∧
    (∀ (images : List String), images ≠ [] →
      routePOST true images none =
        .error { status := 500, message := "Invalid response format from AI" }) := by
  constructor
  · intro c n draws markers tag pt msg
    exact ⟨rfl, rfl, rfl, rfl, rfl⟩
  · intro images himg
    unfold routePOST
    rw [if_neg himg, if_neg (by simp)]

theorem claim_C10_failure_fallback_witness :
    (analyzeLiveImages demoClaim 2 demoDraws none "CTX" 1
        (.failure "Network error")).assessment =
      some { generateMockAssessment demoClaim 2 none none none none demoDraws with
             summary := some ("[API Error] " ++ "Network error" ++
               " - using simulated data") } ∧
    (analyzeLiveImages demoClaim 2 demoDraws none "CTX" 1
        (.failure "Network error")).isAnalyzing = false ∧
    (analyzeLiveImages demoClaim 2 demoDraws none "CTX" 1
        (.failure "Network error")).errorNote = some "Network error" ∧
    (analyzeLiveImages demoClaim 2 demoDraws none "CTX" 1
        (.failure "Network error")).apiCallCount = 1 ∧
    (analyzeLiveImages demoClaim 2 demoDraws none "CTX" 1
        (.failure "Network error")).route = .review ∧
    routePOST true ["img1"] none =
      .error { status := 500, message := "Invalid response format from AI" } := by
  have h1 := claim_C10_failure_fallback.1 demoClaim 2 demoDraws none "CTX" 1
    "Network error"
  have h2 := claim_C10_failure_fallback.2 ["img1"] (by decide)
  exact ⟨h1.1, h1.2.1, h1.2.2.1, h1.2.2.2.1, h1.2.2.2.2, h2⟩

end ClaimAssist
